import Mathlib

/-!
Shallow embedding of the saftvrmie repository's numerical core
(src/saftvrmie/potentials/mie.py, src/saftvrmie/potentials/sutherland.py,
src/saftvrmie/models/carnahan_starling.py, src/saftvrmie/models/saftvrmie.py,
src/saftvrmie/constants/constants.py).

Conventions of the embedding:
- Python/numpy float arithmetic is modelled over ℝ.  `**` with a float
  exponent becomes `Real.rpow`; `**` with an integer-literal exponent
  becomes the natural-number power, exactly as the source writes them.
- numpy arrays indexed by temperature or density become `List ℝ`;
  matrices become `List (List ℝ)`.  The broadcasting/transposition of the
  source is re-traced shape by shape in comments at each definition.
- A scalar float division by zero raises ZeroDivisionError in Python;
  where a claim is about that behaviour the construction is modelled in
  `Except` (the error value).  A numpy array division whose denominator
  is zero raises nothing and produces non-finite entries (NaN/Inf);
  where a claim is about that behaviour the division is modelled in
  `Option` with `none` standing for the non-finite float result.
-/

/-- Module constant `BOLTZMANN = 1.3806452E-23` from
src/saftvrmie/constants/constants.py (J/K). -/
noncomputable def BOLTZMANN : ℝ := 1.3806452e-23

/-- The single error kind of the numeric core: Python's ZeroDivisionError,
raised by a scalar float division with zero divisor.  The specification
calls this error kind ParameterDomainError. -/
inductive ParameterDomainError where
  | zeroDivision
deriving DecidableEq

/-- Mie potential object: the four constructor parameters of
`Mie.__init__` (src/saftvrmie/potentials/mie.py). -/
structure Mie where
  attractive_exponent : ℝ
  repulsive_exponent : ℝ
  segment_diameter : ℝ
  potential_depth : ℝ

/-- The prefactor `self.__C` computed in `Mie.__init__`:
`C = (λr/(λr−λa)) · (λr/λa)^(λa/(λr−λa))` (real power). -/
noncomputable def Mie.C (m : Mie) : ℝ :=
  (m.repulsive_exponent / (m.repulsive_exponent - m.attractive_exponent))
    * (m.repulsive_exponent / m.attractive_exponent)
      ^ (m.attractive_exponent / (m.repulsive_exponent - m.attractive_exponent))

/-- The local variable `BOLTZMANN = 1.380649e-23` defined inside
`Mie.potential`, shadowing the module constant imported at the top of
src/saftvrmie/potentials/mie.py. -/
noncomputable def Mie.BOLTZMANN : ℝ := 1.380649e-23

/-- Method `Mie.potential(distance)`: uses the shadowing local constant. -/
noncomputable def Mie.potential (m : Mie) (r : ℝ) : ℝ :=
  Mie.C m * m.potential_depth * Mie.BOLTZMANN
    * ((m.segment_diameter / r) ^ m.repulsive_exponent
        - (m.segment_diameter / r) ^ m.attractive_exponent)

/-- Grid point `k` of `Mie.effective_diameter`:
`np.linspace(0, sigma, 100)[k] + 1E-10 = k·(σ/99) + 1e-10`. -/
noncomputable def Mie.grid (m : Mie) (k : ℕ) : ℝ :=
  (k : ℝ) * (m.segment_diameter / 99) + 1e-10

/-- Method `Mie.__aux_function` at one grid point:
`1 - exp(-1 * beta * potential(r))`.  The source additionally replaces
NaN entries by 1 (`np.where(np.isnan(...), 1, ...)`); over ℝ the
expression is everywhere defined, so that replacement is the identity
here (the grid's 1e-10 offset keeps every divisor nonzero). -/
noncomputable def Mie.aux_function (m : Mie) (β r : ℝ) : ℝ :=
  1 - Real.exp (-(β * Mie.potential m r))

/-- Method `Mie.effective_diameter` for one value of beta: the source computes
`d = (h/2)*(y[0] + 2*sum(y[1:-1]) + y[-1])` with `h = σ/99` over the
100-point grid `Mie.grid`.  Each output row depends only on its own
beta, so the vector version is the elementwise map below. -/
noncomputable def Mie.effective_diameter (m : Mie) (β : ℝ) : ℝ :=
  (m.segment_diameter / 99 / 2)
    * (Mie.aux_function m β (Mie.grid m 0)
        + 2 * (∑ k ∈ Finset.Ico 1 99, Mie.aux_function m β (Mie.grid m k))
        + Mie.aux_function m β (Mie.grid m 99))

/-- Vector form of `Mie.effective_diameter`: one value per temperature. -/
noncomputable def Mie.effective_diameter_vec (m : Mie) (betas : List ℝ) : List ℝ :=
  betas.map (Mie.effective_diameter m)

/-- Checked model of `Mie.__init__`: the constructor computes `self.__C`
with the scalar float divisions `λr/(λr−λa)`, `λr/λa` and `λa/(λr−λa)`;
a zero divisor raises ZeroDivisionError there, i.e. at construction. -/
noncomputable def Mie.init (la lr σ ε : ℝ) : Except ParameterDomainError Mie :=
  if lr - la = 0 then .error .zeroDivision
  else if la = 0 then .error .zeroDivision
  else .ok ⟨la, lr, σ, ε⟩

/-- Carnahan-Starling object: constructor parameter of
`CarnahanStarling.__init__` (src/saftvrmie/models/carnahan_starling.py). -/
structure CarnahanStarling where
  diameter : ℝ

/-- Method `CarnahanStarling.packing_fraction`: `eta = density·π·diameter³/6`,
elementwise over a density array. -/
noncomputable def CarnahanStarling.packing_fraction (c : CarnahanStarling) (ρ : ℝ) : ℝ :=
  ρ * Real.pi * c.diameter ^ 3 / 6

/-- Method `CarnahanStarling.compressibility_factor`:
`K_hs = (1−η)⁴ / (1 + 4η + 4η² − 4η³ + η⁴)`. -/
noncomputable def CarnahanStarling.compressibility_factor (c : CarnahanStarling) (ρ : ℝ) : ℝ :=
  (1 - c.packing_fraction ρ) ^ 4
    / (1 + 4 * c.packing_fraction ρ + 4 * (c.packing_fraction ρ) ^ 2
        - 4 * (c.packing_fraction ρ) ^ 3 + (c.packing_fraction ρ) ^ 4)

/-- Method `CarnahanStarling.alpha`: recomputes the Mie prefactor C inline from
the two exponents, then `alpha = C·(1/(λa−3) − 1/(λr−3))`.  (The method
takes `self` in the source but reads no state from it.) -/
noncomputable def CarnahanStarling.alpha (lambda_a lambda_r : ℝ) : ℝ :=
  ((lambda_r / (lambda_r - lambda_a))
      * (lambda_r / lambda_a) ^ (lambda_a / (lambda_r - lambda_a)))
    * ((1 / (lambda_a - 3)) - (1 / (lambda_r - 3)))

/-- The 7×6 `phi` array literal of `CarnahanStarling.__f`. -/
noncomputable def csPhiRows : List (List ℝ) :=
  [[7.5365557, -359.44, 1550.9, -1.19932, -1911.28, 9236.9],
   [-37.60463, 1825.6, -5070.1, 9.063632, 21390.175, -129430],
   [71.745953, -3168, 6534.6, -17.94482, -51320.7, 357230],
   [-46.83552, 1884.2, -3288.7, 11.34027, 37064.54, -315530],
   [-2.467982, -0.82376, -2.7171, 20.52142, 1103.742, 1390.2],
   [-0.50272, -3.1935, 2.0883, -56.6377, -3264.61, -4518.2],
   [8.0956883, 3.7090, 0, 40.53683, 2556.181, 4241.6]]

/-- Entry `phi[i][j]` of the table. -/
noncomputable def csPhi (i j : ℕ) : ℝ :=
  (csPhiRows.getD i []).getD j 0

/-- Numerator of component `k` in `CarnahanStarling.__f`:
`np.matmul(phi[:4, :].T, alpha_powers)` takes, for output index `k`,
the k-th COLUMN of the first four rows: `sum_j phi[j][k]·alpha^j`. -/
noncomputable def csFnum (α : ℝ) (k : ℕ) : ℝ :=
  ∑ j ∈ Finset.range 4, csPhi j k * α ^ j

/-- Denominator of component `k` in `CarnahanStarling.__f`:
`1 + np.matmul(phi[4:, :].T, alpha_powers[1:])`, i.e. for output index
`k` the k-th column of the last three rows against `alpha^1..alpha^3`. -/
noncomputable def csFden (α : ℝ) (k : ℕ) : ℝ :=
  1 + ∑ j ∈ Finset.range 3, csPhi (4 + j) k * α ^ (j + 1)

/-- Component function `f[k]` of `CarnahanStarling.__f` (k = 0..5). -/
noncomputable def csF (α : ℝ) (k : ℕ) : ℝ :=
  csFnum α k / csFden α k

/-- One entry of `CarnahanStarling.correction_factor`:
`f[0]·η·x0³ + f[1]·(η·x0³)⁵ + f[2]·(η·x0³)⁸`.  In the source the
packing-fraction axis is a column (`[:, np.newaxis]`) and the x0 axis a
row, so the matrix value at (density j, temperature i) is this entry at
(η_j, x0_i); see `CarnahanStarling.correction_factor_mat`. -/
noncomputable def CarnahanStarling.correction_factor (c : CarnahanStarling) (α η X : ℝ) : ℝ :=
  csF α 0 * η * X ^ 3 + csF α 1 * (η * X ^ 3) ^ 5 + csF α 2 * (η * X ^ 3) ^ 8

/-- Matrix form of `CarnahanStarling.correction_factor` over a
packing-fraction vector (rows, density axis) and an x0 vector
(columns, temperature axis). -/
noncomputable def CarnahanStarling.correction_factor_mat (c : CarnahanStarling) (α : ℝ)
    (pfs x0s : List ℝ) : List (List ℝ) :=
  pfs.map (fun η => x0s.map (fun X => CarnahanStarling.correction_factor c α η X))

/-- Sutherland potential object: constructor parameters of
`Sutherland.__init__` (src/saftvrmie/potentials/sutherland.py). -/
structure Sutherland where
  interaction_power : ℝ
  segment_diameter : ℝ
  potential_depth : ℝ

/-- The fixed 4×4 `parameters` array of
`Sutherland.effective_packing_fraction`. -/
noncomputable def sutherlandParameters : List (List ℝ) :=
  [[0.81096, 1.7888, -37.578, 92.284],
   [1.0505, -19.341, 151.26, -465.50],
   [-1.9057, 22.845, -228.14, 973.92],
   [1.0885, -6.1962, 106.98, -677.64]]

/-- Entry `parameters[i][j]`. -/
noncomputable def sutherlandP (i j : ℕ) : ℝ :=
  (sutherlandParameters.getD i []).getD j 0

/-- Row `i` of `c = np.matmul(parameters, lambda_array)` with
`lambda_array = [1, 1/λ, 1/λ², 1/λ³]`. -/
noncomputable def Sutherland.c (s : Sutherland) (i : ℕ) : ℝ :=
  sutherlandP i 0 * 1 + sutherlandP i 1 * (1 / s.interaction_power)
    + sutherlandP i 2 * (1 / s.interaction_power ^ 2)
    + sutherlandP i 3 * (1 / s.interaction_power ^ 3)

/-- Method `Sutherland.effective_packing_fraction`:
`np.matmul(c.T, eta_powers)` with `eta_powers = [η, η², η³, η⁴]`,
elementwise over the packing-fraction vector. -/
noncomputable def Sutherland.effective_packing_fraction (s : Sutherland) (η : ℝ) : ℝ :=
  ∑ i ∈ Finset.range 4, Sutherland.c s i * η ^ (i + 1)

/-- Method `Sutherland.first_order_perturbation_term`:
`-12·ε·BOLTZMANN·η·(1/(λ−3))·((1 − η_eff/2)/(1 − η_eff)³)` with the
module constant `BOLTZMANN`; elementwise over the packing fraction. -/
noncomputable def Sutherland.first_order_perturbation_term (s : Sutherland) (η : ℝ) : ℝ :=
  -12 * s.potential_depth * BOLTZMANN * η * (1 / (s.interaction_power - 3))
    * ((1 - Sutherland.effective_packing_fraction s η / 2)
        / ((1 - Sutherland.effective_packing_fraction s η) ^ 3))

/-- Checked model of the scalar float division `1/(λ−3)` inside
`Sutherland.first_order_perturbation_term`: `interaction_power` is a
Python scalar, so a zero divisor raises ZeroDivisionError eagerly at
that division. -/
noncomputable def Sutherland.first_order_checked (s : Sutherland) (η : ℝ) :
    Except ParameterDomainError ℝ :=
  if s.interaction_power - 3 = 0 then .error .zeroDivision
  else .ok (Sutherland.first_order_perturbation_term s η)

/-- SAFT-VR Mie engine object: constructor parameters of
`SAFTVRMie.__init__` (src/saftvrmie/models/saftvrmie.py). -/
structure SAFTVRMie where
  attractive_exponent : ℝ
  repulsive_exponent : ℝ
  segment_diameter : ℝ
  potential_depth : ℝ

/-- Field `self.__mie = Mie(attractive, repulsive, diameter, depth)`. -/
noncomputable def SAFTVRMie.mie (s : SAFTVRMie) : Mie :=
  ⟨s.attractive_exponent, s.repulsive_exponent, s.segment_diameter, s.potential_depth⟩

/-- Field `self.__C = self.mie.C`. -/
noncomputable def SAFTVRMie.C (s : SAFTVRMie) : ℝ :=
  Mie.C (SAFTVRMie.mie s)

/-- Checked model of `SAFTVRMie.__init__`: it constructs the `Mie`
object, whose constructor performs the prefactor divisions; a zero
divisor there raises at engine construction. -/
noncomputable def SAFTVRMie.init (la lr σ ε : ℝ) : Except ParameterDomainError SAFTVRMie :=
  (Mie.init la lr σ ε).map (fun _ => ⟨la, lr, σ, ε⟩)

/-- Method `SAFTVRMie.x0(diameter) = segment_diameter / diameter`. -/
noncomputable def SAFTVRMie.x0 (s : SAFTVRMie) (d : ℝ) : ℝ :=
  s.segment_diameter / d

/-- Method `SAFTVRMie.__I`: `-((x0^(3−λ) − 1)/(λ−3))` (real power). -/
noncomputable def SAFTVRMie.I (lam X : ℝ) : ℝ :=
  -((X ^ (3 - lam) - 1) / (lam - 3))

/-- Method `SAFTVRMie.__J`:
`-((x0^(4−λ)·(λ−3) − x0^(3−λ)·(λ−4) − 1)/((λ−3)·(λ−4)))`. -/
noncomputable def SAFTVRMie.J (lam X : ℝ) : ℝ :=
  -((X ^ (4 - lam) * (lam - 3) - X ^ (3 - lam) * (lam - 4) - 1)
      / ((lam - 3) * (lam - 4)))

/-- Checked model of the numpy array division inside `SAFTVRMie.__I`:
`x0` is an array, so a zero denominator `λ−3` produces non-finite
entries (here `none`) and raises nothing. -/
noncomputable def SAFTVRMie.Ichecked (lam X : ℝ) : Option ℝ :=
  if lam - 3 = 0 then none else some (SAFTVRMie.I lam X)

/-- Checked model of the numpy array division inside `SAFTVRMie.__J`:
zero denominator `(λ−3)·(λ−4)` produces non-finite entries (`none`)
and raises nothing. -/
noncomputable def SAFTVRMie.Jchecked (lam X : ℝ) : Option ℝ :=
  if (lam - 3) * (lam - 4) = 0 then none else some (SAFTVRMie.J lam X)

/-- One entry of `SAFTVRMie.__B`.  Shapes in the source: `I`, `J` are
reshaped to columns over the beta axis, multiplied against the
packing-fraction row, giving (beta, density); the final `.T` returns
(density, temperature), so the value at (density j, temperature i) is
this entry at (η_j, x0_i). -/
noncomputable def SAFTVRMie.B (s : SAFTVRMie) (lam η X : ℝ) : ℝ :=
  12 * η * s.potential_depth * BOLTZMANN
    * (SAFTVRMie.I lam X * ((1 - η / 2) / ((1 - η) ^ 3))
        - SAFTVRMie.J lam X * ((9 * η * (1 + η)) / (2 * ((1 - η) ^ 3))))

/-- Entry (temperature i, density j) of
`SAFTVRMie.first_order_perturbation_term`.  Shape accounting for the
source: `a1S_*` are columns over density; `B_*` are (density, beta);
`(a1S + B).T` is (beta, density); `x0[:, np.newaxis]**λ` multiplies its
rows, so `a1[i][j] = C·(x0_i^λa·(a1S_a(η_j) + B(λa, η_j, x0_i)) −
x0_i^λr·(a1S_r(η_j) + B(λr, η_j, x0_i)))`. -/
noncomputable def SAFTVRMie.a1_entry (s : SAFTVRMie) (β ρ : ℝ) : ℝ :=
  let η := CarnahanStarling.packing_fraction ⟨s.segment_diameter⟩ ρ
  let X := SAFTVRMie.x0 s (Mie.effective_diameter (SAFTVRMie.mie s) β)
  SAFTVRMie.C s
    * (X ^ s.attractive_exponent
          * (Sutherland.first_order_perturbation_term
              ⟨s.attractive_exponent, s.segment_diameter, s.potential_depth⟩ η
            + SAFTVRMie.B s s.attractive_exponent η X)
        - X ^ s.repulsive_exponent
          * (Sutherland.first_order_perturbation_term
              ⟨s.repulsive_exponent, s.segment_diameter, s.potential_depth⟩ η
            + SAFTVRMie.B s s.repulsive_exponent η X))

/-- Method `SAFTVRMie.first_order_perturbation_term` on arrays: the result is
a (temperature, density) matrix; rows follow the beta vector, columns
the density vector. -/
noncomputable def SAFTVRMie.first_order_perturbation_term (s : SAFTVRMie)
    (betas densities : List ℝ) : List (List ℝ) :=
  betas.map (fun β => densities.map (fun ρ => SAFTVRMie.a1_entry s β ρ))

/-- Scalar call path: a non-array argument is promoted by
`np.array([...])` to a length-1 vector, so the result is 1×1. -/
noncomputable def SAFTVRMie.first_order_perturbation_term_scalar (s : SAFTVRMie)
    (β ρ : ℝ) : List (List ℝ) :=
  SAFTVRMie.first_order_perturbation_term s [β] [ρ]

/-- Entry (temperature i, density j) of
`SAFTVRMie.second_order_perturbation_term`.  Shape accounting: the
compressibility factor is a column over density, the correction factor
and all `a1S + B` combinations are (density, beta), `x0**λ` broadcasts
over the beta axis, and the final `.T` gives (temperature, density). -/
noncomputable def SAFTVRMie.a2_entry (s : SAFTVRMie) (β ρ : ℝ) : ℝ :=
  let cs : CarnahanStarling := ⟨s.segment_diameter⟩
  let η := CarnahanStarling.packing_fraction cs ρ
  let X := SAFTVRMie.x0 s (Mie.effective_diameter (SAFTVRMie.mie s) β)
  let α := CarnahanStarling.alpha s.attractive_exponent s.repulsive_exponent
  0.5 * CarnahanStarling.compressibility_factor cs ρ
      * (1 + CarnahanStarling.correction_factor cs α η X)
      * (s.potential_depth * BOLTZMANN) * SAFTVRMie.C s ^ 2
    * (X ^ (2 * s.attractive_exponent)
          * (Sutherland.first_order_perturbation_term
              ⟨2 * s.attractive_exponent, s.segment_diameter, s.potential_depth⟩ η
            + SAFTVRMie.B s (2 * s.attractive_exponent) η X)
        - 2 * (X ^ (s.attractive_exponent + s.repulsive_exponent)
          * (Sutherland.first_order_perturbation_term
              ⟨s.repulsive_exponent + s.attractive_exponent,
                s.segment_diameter, s.potential_depth⟩ η
            + SAFTVRMie.B s (s.attractive_exponent + s.repulsive_exponent) η X))
        + X ^ (2 * s.repulsive_exponent)
          * (Sutherland.first_order_perturbation_term
              ⟨2 * s.repulsive_exponent, s.segment_diameter, s.potential_depth⟩ η
            + SAFTVRMie.B s (2 * s.repulsive_exponent) η X))

/-- Method `SAFTVRMie.second_order_perturbation_term` on arrays: same
(temperature, density) orientation as the first-order term. -/
noncomputable def SAFTVRMie.second_order_perturbation_term (s : SAFTVRMie)
    (betas densities : List ℝ) : List (List ℝ) :=
  betas.map (fun β => densities.map (fun ρ => SAFTVRMie.a2_entry s β ρ))

/-- Scalar call path of the second-order term (promotion to 1×1). -/
noncomputable def SAFTVRMie.second_order_perturbation_term_scalar (s : SAFTVRMie)
    (β ρ : ℝ) : List (List ℝ) :=
  SAFTVRMie.second_order_perturbation_term s [β] [ρ]

/-- Claim C3: `Mie.effective_diameter` is the composite trapezoidal rule
for `g(r) = 1 − exp(−β·potential(r))` on the fixed uniform 100-point
grid (99 intervals of width σ/99); the grid is the interval [0, σ]
shifted by the small positive offset 1e-10 (so the first point is
1e-10, not 0, which is the source's way of defining the integrand at
r→0 by evaluating at a positive offset), and the vector version returns
one value per input temperature. -/
theorem effective_diameter_trapezoid :
    ∀ (m : Mie) (β : ℝ),
      (Mie.effective_diameter m β
        = ∑ k ∈ Finset.range 99,
            (m.segment_diameter / 99 / 2)
              * (Mie.aux_function m β (Mie.grid m k)
                  + Mie.aux_function m β (Mie.grid m (k + 1))))
      ∧ (Mie.grid m 0 = 1e-10)
      ∧ (Mie.grid m 99 = m.segment_diameter + 1e-10)
      ∧ (∀ k : ℕ, Mie.grid m (k + 1) - Mie.grid m k = m.segment_diameter / 99)
      ∧ (∀ betas : List ℝ,
          Mie.effective_diameter_vec m betas = betas.map (Mie.effective_diameter m)
          ∧ (Mie.effective_diameter_vec m betas).length = betas.length) := by
  intro m β
  refine ⟨?_, ?_, ?_, ?_, ?_⟩
  · have hsplit :
        ∑ k ∈ Finset.range 99, Mie.aux_function m β (Mie.grid m k)
          = Mie.aux_function m β (Mie.grid m 0)
            + ∑ k ∈ Finset.Ico 1 99, Mie.aux_function m β (Mie.grid m k) := by
      rw [Finset.range_eq_Ico,
        Finset.sum_eq_sum_Ico_succ_bot (by norm_num : (0:ℕ) < 99)]
    have hshift :
        ∑ k ∈ Finset.range 99, Mie.aux_function m β (Mie.grid m (k + 1))
          = (∑ k ∈ Finset.range 99, Mie.aux_function m β (Mie.grid m k))
              + Mie.aux_function m β (Mie.grid m 99)
              - Mie.aux_function m β (Mie.grid m 0) := by
      have h100 :
          ∑ k ∈ Finset.range 100, Mie.aux_function m β (Mie.grid m k)
            = (∑ k ∈ Finset.range 99, Mie.aux_function m β (Mie.grid m (k + 1)))
                + Mie.aux_function m β (Mie.grid m 0) :=
        Finset.sum_range_succ' (fun k => Mie.aux_function m β (Mie.grid m k)) 99
      have h99 :
          ∑ k ∈ Finset.range 100, Mie.aux_function m β (Mie.grid m k)
            = (∑ k ∈ Finset.range 99, Mie.aux_function m β (Mie.grid m k))
                + Mie.aux_function m β (Mie.grid m 99) :=
        Finset.sum_range_succ (fun k => Mie.aux_function m β (Mie.grid m k)) 99
      linarith [h100, h99]
    calc Mie.effective_diameter m β
        = (m.segment_diameter / 99 / 2)
            * (Mie.aux_function m β (Mie.grid m 0)
                + 2 * (∑ k ∈ Finset.Ico 1 99, Mie.aux_function m β (Mie.grid m k))
                + Mie.aux_function m β (Mie.grid m 99)) := rfl
      _ = ∑ k ∈ Finset.range 99,
            (m.segment_diameter / 99 / 2)
              * (Mie.aux_function m β (Mie.grid m k)
                  + Mie.aux_function m β (Mie.grid m (k + 1))) := by
          rw [← Finset.mul_sum, Finset.sum_add_distrib, hshift, hsplit]
          ring
  · simp [Mie.grid]
  · have h99 : ((99:ℕ) : ℝ) * (m.segment_diameter / 99) = m.segment_diameter := by
      push_cast
      field_simp
    simp only [Mie.grid, h99]
  · intro k
    simp only [Mie.grid]
    push_cast
    ring
  · intro betas
    exact ⟨rfl, by simp [Mie.effective_diameter_vec]⟩

/-- Claim C8: the prefactor `C` is computed at construction from the
formula `C = (λr/(λr−λa)) · (λr/λa)^(λa/(λr−λa))`, and for the
Lennard-Jones exponents λa = 6, λr = 12 it equals exactly 4. -/
theorem mie_prefactor_C :
    (∀ m : Mie,
      Mie.C m
        = (m.repulsive_exponent / (m.repulsive_exponent - m.attractive_exponent))
            * (m.repulsive_exponent / m.attractive_exponent)
              ^ (m.attractive_exponent / (m.repulsive_exponent - m.attractive_exponent)))
    ∧ (∀ σ ε : ℝ, Mie.C ⟨6, 12, σ, ε⟩ = 4) := by
  constructor
  · intro m
    rfl
  · intro σ ε
    have h1 : ((6:ℝ) / (12 - 6)) = 1 := by norm_num
    have h2 : ((12:ℝ) / (12 - 6)) = 2 := by norm_num
    have h3 : ((12:ℝ) / 6) = 2 := by norm_num
    simp only [Mie.C, h1, h2, h3, Real.rpow_one]
    norm_num

/-- Claim C1: the first-order term is the (temperature, density) matrix
whose (i, j) entry is
`C·(x0_i^λa·(a1S_a(η_j) + B(λa, η_j, x0_i)) − x0_i^λr·(a1S_r(η_j) + B(λr, η_j, x0_i)))`
with `η_j = packingFraction(ρ_j)`, `x0_i = σ/effectiveDiameter(β_i)` and
`B(λ, η, x0) = 12·η·ε·kB·(I·(1−η/2)/(1−η)³ − J·9η(1+η)/(2(1−η)³))`;
scalar inputs are promoted to length-1 vectors and give a 1×1 matrix. -/
theorem a1_matrix_spec :
    ∀ (s : SAFTVRMie) (betas rhos : List ℝ),
      (SAFTVRMie.first_order_perturbation_term s betas rhos
        = betas.map (fun β => rhos.map (fun ρ =>
            let η := CarnahanStarling.packing_fraction ⟨s.segment_diameter⟩ ρ
            let X := s.segment_diameter / Mie.effective_diameter (SAFTVRMie.mie s) β
            SAFTVRMie.C s
              * (X ^ s.attractive_exponent
                    * (Sutherland.first_order_perturbation_term
                        ⟨s.attractive_exponent, s.segment_diameter, s.potential_depth⟩ η
                      + 12 * η * s.potential_depth * BOLTZMANN
                        * (SAFTVRMie.I s.attractive_exponent X * (1 - η / 2) / (1 - η) ^ 3
                            - SAFTVRMie.J s.attractive_exponent X
                              * (9 * η * (1 + η)) / (2 * (1 - η) ^ 3)))
                  - X ^ s.repulsive_exponent
                    * (Sutherland.first_order_perturbation_term
                        ⟨s.repulsive_exponent, s.segment_diameter, s.potential_depth⟩ η
                      + 12 * η * s.potential_depth * BOLTZMANN
                        * (SAFTVRMie.I s.repulsive_exponent X * (1 - η / 2) / (1 - η) ^ 3
                            - SAFTVRMie.J s.repulsive_exponent X
                              * (9 * η * (1 + η)) / (2 * (1 - η) ^ 3)))))))
      ∧ (∀ β ρ : ℝ,
          SAFTVRMie.first_order_perturbation_term_scalar s β ρ
              = [[SAFTVRMie.a1_entry s β ρ]]
            ∧ (SAFTVRMie.first_order_perturbation_term_scalar s β ρ).length = 1
            ∧ ((SAFTVRMie.first_order_perturbation_term_scalar s β ρ).getD 0 []).length = 1) := by
  intro s betas rhos
  constructor
  · simp only [SAFTVRMie.first_order_perturbation_term]
    refine List.map_congr_left ?_
    intro β _
    refine List.map_congr_left ?_
    intro ρ _
    simp only [SAFTVRMie.a1_entry, SAFTVRMie.B, SAFTVRMie.x0]
    ring
  · intro β ρ
    refine ⟨rfl, rfl, rfl⟩

/-- Claim C7: element-by-element vectorization consistency: entry (i, j)
of the a1 matrix on a full grid equals the (0, 0) entry of the 1×1
matrix produced by the scalar-promoted call at (β_i, ρ_j). -/
theorem a1_vectorization_consistency :
    ∀ (s : SAFTVRMie) (betas rhos : List ℝ),
      SAFTVRMie.first_order_perturbation_term s betas rhos
        = betas.map (fun β => rhos.map (fun ρ =>
            ((SAFTVRMie.first_order_perturbation_term s [β] [ρ]).getD 0 []).getD 0 0)) := by
  intro s betas rhos
  simp only [SAFTVRMie.first_order_perturbation_term, List.map_cons, List.map_nil,
    List.getD_cons_zero]

/-- Claim C2: the second-order term is the matrix, in the same
(temperature, density) orientation as the first-order term, whose
(i, j) entry is
`0.5·K_hs(ρ_j)·(1 + correctionFactor(α, η_j, x0_i))·ε·kB·C²·
(x0_i^(2λa)·(a1S_2a + B_2a) − 2·x0_i^(λa+λr)·(a1S_ar + B_ar) + x0_i^(2λr)·(a1S_2r + B_2r))`
with Sutherland/B pairs at exponents 2λa, 2λr, λa+λr,
`α = CarnahanStarling.alpha(λa, λr)` and K_hs the Carnahan-Starling
compressibility factor. -/
theorem a2_matrix_spec :
    ∀ (s : SAFTVRMie) (betas rhos : List ℝ),
      SAFTVRMie.second_order_perturbation_term s betas rhos
        = betas.map (fun β => rhos.map (fun ρ =>
            let η := CarnahanStarling.packing_fraction ⟨s.segment_diameter⟩ ρ
            let X := s.segment_diameter / Mie.effective_diameter (SAFTVRMie.mie s) β
            let α := CarnahanStarling.alpha s.attractive_exponent s.repulsive_exponent
            0.5 * CarnahanStarling.compressibility_factor ⟨s.segment_diameter⟩ ρ
                * (1 + CarnahanStarling.correction_factor ⟨s.segment_diameter⟩ α η X)
                * s.potential_depth * BOLTZMANN * SAFTVRMie.C s ^ 2
              * (X ^ (2 * s.attractive_exponent)
                    * (Sutherland.first_order_perturbation_term
                        ⟨2 * s.attractive_exponent, s.segment_diameter, s.potential_depth⟩ η
                      + SAFTVRMie.B s (2 * s.attractive_exponent) η X)
                  - 2 * X ^ (s.attractive_exponent + s.repulsive_exponent)
                    * (Sutherland.first_order_perturbation_term
                        ⟨s.attractive_exponent + s.repulsive_exponent,
                          s.segment_diameter, s.potential_depth⟩ η
                      + SAFTVRMie.B s (s.attractive_exponent + s.repulsive_exponent) η X)
                  + X ^ (2 * s.repulsive_exponent)
                    * (Sutherland.first_order_perturbation_term
                        ⟨2 * s.repulsive_exponent, s.segment_diameter, s.potential_depth⟩ η
                      + SAFTVRMie.B s (2 * s.repulsive_exponent) η X)))) := by
  intro s betas rhos
  have hsu : ∀ η : ℝ,
      Sutherland.first_order_perturbation_term
          ⟨s.repulsive_exponent + s.attractive_exponent,
            s.segment_diameter, s.potential_depth⟩ η
        = Sutherland.first_order_perturbation_term
            ⟨s.attractive_exponent + s.repulsive_exponent,
              s.segment_diameter, s.potential_depth⟩ η := by
    intro η
    rw [add_comm s.repulsive_exponent s.attractive_exponent]
  simp only [SAFTVRMie.second_order_perturbation_term]
  refine List.map_congr_left ?_
  intro β _
  refine List.map_congr_left ?_
  intro ρ _
  simp only [SAFTVRMie.a2_entry, SAFTVRMie.x0, hsu]
  ring

/-- Claim C6: constructing the engine with equal attractive and
repulsive exponents fails at construction time: the Mie prefactor
divisions executed inside the constructor have the zero divisor
λr − λa, and the scalar float division raises there (Python
ZeroDivisionError, the spec's ParameterDomainError), before any
perturbation method can be called. -/
theorem engine_init_equal_exponents :
    ∀ lam σ ε : ℝ,
      SAFTVRMie.init lam lam σ ε = Except.error ParameterDomainError.zeroDivision
      ∧ Mie.init lam lam σ ε = Except.error ParameterDomainError.zeroDivision := by
  intro lam σ ε
  constructor
  · simp [SAFTVRMie.init, Mie.init, Except.map]
  · simp [Mie.init]

/-- Counterexample to claim C4 as stated: in `CarnahanStarling.__f` the
matmul against the TRANSPOSED table blocks makes the table columnwise,
not rowwise.  Concretely, at α = 1: the three last rows do NOT give one
denominator shared across the numerators — component 0 and component 1
have different denominators — and the numerator of component 0 is the
α-weighted sum down COLUMN 0 of the first four rows, which differs from
the degree-3 polynomial read along ROW 0 as the claim describes. -/
theorem phi_table_structure_counterexample :
    csFden 1 0 ≠ csFden 1 1
    ∧ csFnum 1 0 ≠ csPhi 0 0 + csPhi 0 1 * 1 + csPhi 0 2 * 1 ^ 2 + csPhi 0 3 * 1 ^ 3 := by
  constructor
  · norm_num [csFden, csPhi, csPhiRows, Finset.sum_range_succ, Finset.sum_range_zero]
  · norm_num [csFnum, csPhi, csPhiRows, Finset.sum_range_succ, Finset.sum_range_zero]

/-- Claim C4 as amended: in the seven-row phi table the first four ROWS
hold the α⁰..α³ coefficients and each COLUMN k = 0..5 is one component
function f_k (numerator `phi[0][k] + phi[1][k]·α + phi[2][k]·α² +
phi[3][k]·α³`); the last three rows hold the per-column denominator
coefficients for α¹..α³ with constant coefficient implicitly 1 (not
shared between columns); the correction factor is
`f0·(η·x0³) + f1·(η·x0³)⁵ + f2·(η·x0³)⁸`, broadcast over the outer
product of the density (η) axis as rows and the temperature (x0) axis
as columns. -/
theorem correction_factor_columnwise :
    ∀ (α η X : ℝ) (c : CarnahanStarling),
      (∀ k : ℕ,
        csF α k
          = (csPhi 0 k + csPhi 1 k * α + csPhi 2 k * α ^ 2 + csPhi 3 k * α ^ 3)
              / (1 + (csPhi 4 k * α + csPhi 5 k * α ^ 2 + csPhi 6 k * α ^ 3)))
      ∧ (CarnahanStarling.correction_factor c α η X
          = csF α 0 * (η * X ^ 3) + csF α 1 * (η * X ^ 3) ^ 5 + csF α 2 * (η * X ^ 3) ^ 8)
      ∧ (∀ pfs x0s : List ℝ,
          CarnahanStarling.correction_factor_mat c α pfs x0s
            = pfs.map (fun η2 => x0s.map (fun X2 =>
                CarnahanStarling.correction_factor c α η2 X2))) := by
  intro α η X c
  refine ⟨?_, ?_, ?_⟩
  · intro k
    simp only [csF, csFnum, csFden, Finset.sum_range_succ, Finset.sum_range_zero,
      pow_zero, pow_one, mul_one, zero_add]
  · simp only [CarnahanStarling.correction_factor]
    ring
  · intro pfs x0s
    rfl

/-- Counterexample to claim C5 as stated: for λ = 3 the `__I` division
and for λ ∈ {3, 4} the `__J` division are numpy array divisions with a
zero denominator; they produce non-finite entries (modelled `none`) in
a result that IS returned — nothing is raised (the code base defines no
ParameterDomainError at all). -/
theorem ij_lambda34_nonfinite_counterexample :
    SAFTVRMie.Ichecked 3 2 = none
    ∧ SAFTVRMie.Jchecked 3 2 = none
    ∧ SAFTVRMie.Jchecked 4 2 = none := by
  refine ⟨?_, ?_, ?_⟩
  · simp [SAFTVRMie.Ichecked]
  · simp [SAFTVRMie.Jchecked]
  · simp [SAFTVRMie.Jchecked]

/-- Claim C5 as amended: only the scalar division `1/(λ−3)` of
`Sutherland.first_order_perturbation_term` raises eagerly at the point
of division for λ = 3 (Python ZeroDivisionError); the I/J formulas with
λ = 3 (and J with λ = 4) instead perform an array division with zero
denominator and deliver non-finite values in the returned result
without raising, while I with λ = 4 has the nonzero denominator 1 and
is an ordinary finite value. -/
theorem domain_division_amended :
    (∀ X : ℝ, SAFTVRMie.Ichecked 3 X = none)
    ∧ (∀ X : ℝ, SAFTVRMie.Jchecked 3 X = none)
    ∧ (∀ X : ℝ, SAFTVRMie.Jchecked 4 X = none)
    ∧ (∀ X : ℝ, SAFTVRMie.Ichecked 4 X = some (SAFTVRMie.I 4 X))
    ∧ (∀ σ ε η : ℝ,
        Sutherland.first_order_checked ⟨3, σ, ε⟩ η
          = Except.error ParameterDomainError.zeroDivision) := by
  refine ⟨?_, ?_, ?_, ?_, ?_⟩
  · intro X
    simp [SAFTVRMie.Ichecked]
  · intro X
    simp [SAFTVRMie.Jchecked]
  · intro X
    simp [SAFTVRMie.Jchecked]
  · intro X
    norm_num [SAFTVRMie.Ichecked]
  · intro σ ε η
    simp [Sutherland.first_order_checked]

/-- Counterexample to claim C9 as stated: a call with a length-zero
temperature or density sequence returns normally — an empty matrix (or
a matrix of empty rows) — instead of raising; the code performs no
input-shape validation and defines no InputShapeError. -/
theorem empty_input_no_error_counterexample :
    SAFTVRMie.first_order_perturbation_term ⟨6, 12, 1, 1⟩ [] [] = ([] : List (List ℝ))
    ∧ SAFTVRMie.second_order_perturbation_term ⟨6, 12, 1, 1⟩ [] [] = ([] : List (List ℝ))
    ∧ SAFTVRMie.first_order_perturbation_term ⟨6, 12, 1, 1⟩ [1] [] = [([] : List ℝ)] := by
  refine ⟨rfl, rfl, rfl⟩

/-- Claim C9 as amended: no validation is performed; for every input,
including length-zero sequences, both perturbation methods silently
return a matrix with one row per beta and one column per density (so an
empty input yields an empty result, never an error).  Non-finite inputs
are a floating-point notion with no counterpart in the real-valued
model; the code contains no check for them either. -/
theorem output_shape_unvalidated :
    ∀ (s : SAFTVRMie) (betas rhos : List ℝ),
      ((SAFTVRMie.first_order_perturbation_term s betas rhos).length = betas.length)
      ∧ ((SAFTVRMie.first_order_perturbation_term s betas rhos).map List.length
          = betas.map (fun _ => rhos.length))
      ∧ ((SAFTVRMie.second_order_perturbation_term s betas rhos).length = betas.length)
      ∧ ((SAFTVRMie.second_order_perturbation_term s betas rhos).map List.length
          = betas.map (fun _ => rhos.length)) := by
  intro s betas rhos
  refine ⟨?_, ?_, ?_, ?_⟩
  · simp [SAFTVRMie.first_order_perturbation_term]
  · simp only [SAFTVRMie.first_order_perturbation_term, List.map_map]
    refine List.map_congr_left ?_
    intro β _
    simp
  · simp [SAFTVRMie.second_order_perturbation_term]
  · simp only [SAFTVRMie.second_order_perturbation_term, List.map_map]
    refine List.map_congr_left ?_
    intro β _
    simp

/-- Claim C10: the pipeline uses two distinct Boltzmann constants —
`Mie.potential` evaluates the pair potential with its shadowing local
constant 1.380649e-23, while the Sutherland first-order term and the B
term use the module constant `BOLTZMANN = 1.3806452e-23`; the two
values differ, so the effective-diameter integrand and the
perturbation-term prefactors of one a1/a2 result use different kB. -/
theorem two_boltzmann_constants :
    Mie.BOLTZMANN = 1.380649e-23
    ∧ BOLTZMANN = 1.3806452e-23
    ∧ Mie.BOLTZMANN ≠ BOLTZMANN
    ∧ (∀ (m : Mie) (r : ℝ),
        Mie.potential m r
          = Mie.C m * m.potential_depth * Mie.BOLTZMANN
              * ((m.segment_diameter / r) ^ m.repulsive_exponent
                  - (m.segment_diameter / r) ^ m.attractive_exponent))
    ∧ (∀ (s : Sutherland) (η : ℝ),
        Sutherland.first_order_perturbation_term s η
          = -12 * s.potential_depth * BOLTZMANN * η * (1 / (s.interaction_power - 3))
              * ((1 - Sutherland.effective_packing_fraction s η / 2)
                  / ((1 - Sutherland.effective_packing_fraction s η) ^ 3)))
    ∧ (∀ (s : SAFTVRMie) (lam η X : ℝ),
        SAFTVRMie.B s lam η X
          = 12 * η * s.potential_depth * BOLTZMANN
              * (SAFTVRMie.I lam X * ((1 - η / 2) / ((1 - η) ^ 3))
                  - SAFTVRMie.J lam X * ((9 * η * (1 + η)) / (2 * ((1 - η) ^ 3))))) := by
  refine ⟨rfl, rfl, ?_, fun m r => rfl, fun s η => rfl, fun s lam η X => rfl⟩
  norm_num [Mie.BOLTZMANN, BOLTZMANN]
